import Mathlib

/-!
Shallow embedding of the `maybe` crate (`src/lib.rs`): a tri-state optional
type `Maybe<T>` with variants `Void` (field absent), `None` (field explicitly
null) and `Some(T)` (field present with a value), together with
- the predicate accessors `is_void` / `is_none` / `is_some`,
- the `Clone` implementation,
- the `From<Option<T>>` / `From<Maybe<T>>` conversion pair,
- the serde `Serialize` / `Deserialize` implementations, modelled against a
  JSON-like structured value type and serializers/deserializers as functions
  into `Except String`,
- the `async_graphql::InputType` implementation (`parse` / `to_value`),
  modelled against a GraphQL value type.
-/

set_option autoImplicit false

namespace MaybeCrate

/-- The `Maybe<T>` enum from `src/lib.rs` (lines 8-14):
`#[derive(Debug, Default, Eq, PartialEq)] pub enum Maybe<T> { #[default] Void, None, Some(T) }`. -/
inductive Maybe (T : Type) where
  | Void : Maybe T
  | None : Maybe T
  | Some : T → Maybe T
deriving DecidableEq, Repr

namespace Maybe

variable {T : Type}

/-- `Default::default()` for `Maybe<T>`: the derived impl picks the variant
marked `#[default]`, which is `Void`. -/
def mkDefault : Maybe T := Maybe.Void

/-- `Maybe::is_void` (`matches!(self, Self::Void)`). -/
def is_void : Maybe T → Bool
  | Maybe.Void => true
  | _ => false

/-- `Maybe::is_none` (`matches!(self, Self::None)`). -/
def is_none : Maybe T → Bool
  | Maybe.None => true
  | _ => false

/-- `Maybe::is_some` (`matches!(self, Self::Some(_))`). -/
def is_some : Maybe T → Bool
  | Maybe.Some _ => true
  | _ => false

/-- The `Clone` impl for `Maybe<T>` where `T: Clone`; `cloneT` stands for
`T::clone`.  `Void` and `None` map to themselves, `Some(value)` maps to
`Some(value.clone())`. -/
def clone (cloneT : T → T) : Maybe T → Maybe T
  | Maybe.Void => Maybe.Void
  | Maybe.None => Maybe.None
  | Maybe.Some value => Maybe.Some (cloneT value)

/-- `impl<T> From<Option<T>> for Maybe<T>` (lines 45-52):
`Some(value) => Maybe::Some(value), None => Maybe::None`. -/
def fromOption : Option T → Maybe T
  | Option.some value => Maybe.Some value
  | Option.none => Maybe.None

/-- `impl<T> From<Maybe<T>> for Option<T>` (lines 54-61):
`Maybe::Some(value) => Some(value), _ => None`. -/
def toOption : Maybe T → Option T
  | Maybe.Some value => Option.some value
  | _ => Option.none

end Maybe

/-- A JSON-like structured value, the data model of the serde serializers and
deserializers the crate is used with (e.g. `serde_json::Value`). -/
inductive Json where
  | null : Json
  | bool : Bool → Json
  | num : Int → Json
  | str : String → Json
  | arr : List Json → Json
  | obj : List (String × Json) → Json
deriving Repr

/-- serde's `Option::<T>::deserialize`: a JSON `null` deserializes to
`Option::None`; any other value is deserialized as `T` and wrapped in
`Option::Some`, propagating a failure of `T`'s deserializer. -/
def deserializeOption {T : Type} (deT : Json → Except String T) :
    Json → Except String (Option T)
  | Json.null => Except.ok Option.none
  | j => (deT j).map Option.some

namespace Maybe

variable {T : Type}

/-- The `Deserialize` impl for `Maybe<T>` (lines 131-142):
`Option::deserialize(deserializer).map(Into::into)`. -/
def deserialize (deT : Json → Except String T) (j : Json) :
    Except String (Maybe T) :=
  (deserializeOption deT j).map Maybe.fromOption

/-- The error message built in the `Serialize` impl for the `Maybe::Void`
case. -/
def voidErrorMessage : String :=
  "\x27Maybe\x27 fields need to be annotated with:\n        #[serde(default, skip_serializing_if = \"Maybe::is_void\")]\n        "

/-- The `Serialize` impl for `Maybe<T>` (lines 144-160), with the serializer
modelled as producing a `Json` value; `serT` stands for `T::serialize`.
`Some(value)` serializes the payload, `None` calls `serialize_none` (JSON
`null`), and `Void` returns `Err(SerError::custom(error_message))`. -/
def serialize (serT : T → Except String Json) : Maybe T → Except String Json
  | Maybe.Some value => serT value
  | Maybe.None => Except.ok Json.null
  | Maybe.Void => Except.error voidErrorMessage

end Maybe

/-- A GraphQL input value, the data model of `async_graphql::Value`
(restricted to the constructors the crate's code inspects plus
representatives of the rest). -/
inductive GqlValue where
  | null : GqlValue
  | bool : Bool → GqlValue
  | num : Int → GqlValue
  | str : String → GqlValue
  | list : List GqlValue → GqlValue
  | object : List (String × GqlValue) → GqlValue
deriving Repr

namespace Maybe

variable {T : Type}

/-- `InputType::parse` for `Maybe<T>` (lines 105-112): an unsupplied argument
(`None`) parses to `Void`, an explicit `Value::Null` parses to `None`, and any
other value delegates to `T::parse` and wraps the result in `Some`,
propagating `T`'s parse error. -/
def parse (pT : Option GqlValue → Except String T) :
    Option GqlValue → Except String (Maybe T)
  | Option.none => Except.ok Maybe.Void
  | Option.some GqlValue.null => Except.ok Maybe.None
  | Option.some value => (pT (Option.some value)).map Maybe.Some

/-- `InputType::to_value` for `Maybe<T>` (lines 114-119): `Some(value)`
delegates to `T::to_value`, everything else (both `Void` and `None`) becomes
`Value::Null`. -/
def to_value (tvT : T → GqlValue) : Maybe T → GqlValue
  | Maybe.Some value => tvT value
  | _ => GqlValue.null

end Maybe

/-- A concrete deserializer for `Nat` payloads, used to instantiate the
generic theorems at a concrete wrapped type. -/
def deNat : Json → Except String Nat
  | Json.num (Int.ofNat n) => Except.ok n
  | _ => Except.error "expected a natural number"

/-- A concrete serializer for `Nat` payloads. -/
def serNat (n : Nat) : Except String Json := Except.ok (Json.num (Int.ofNat n))

/-- A concrete GraphQL parser for `Nat` payloads. -/
def gqlParseNat : Option GqlValue → Except String Nat
  | Option.some (GqlValue.num (Int.ofNat n)) => Except.ok n
  | _ => Except.error "expected a natural number"

/-- A concrete GraphQL encoder for `Nat` payloads. -/
def gqlNat (n : Nat) : GqlValue := GqlValue.num (Int.ofNat n)

/-- C1: serializing a value in the `Void` state fails: for every wrapped type
with a serializer, `serialize` on `Maybe::Void` returns an error (never an
`Ok` output, in particular not `null`), and the error message is the
descriptive text instructing the caller to add the missing per-field
`skip_serializing_if = "Maybe::is_void"` configuration. -/
theorem C1_serialize_void_fails {T : Type} (serT : T → Except String Json) :
    Maybe.serialize serT (Maybe.Void : Maybe T) = Except.error Maybe.voidErrorMessage ∧
    (∀ j : Json, Maybe.serialize serT (Maybe.Void : Maybe T) ≠ Except.ok j) ∧
    (∃ pre post : String, Maybe.voidErrorMessage =
      pre ++ "skip_serializing_if = \"Maybe::is_void\"" ++ post) := by
  refine ⟨rfl, fun j h => Except.noConfusion h, ?_⟩
  refine ⟨"\x27Maybe\x27 fields need to be annotated with:\n        #[serde(default, ",
    ")]\n        ", ?_⟩
  decide

/-- C2: serialization is transparent for the value-bearing states: serializing
`Maybe::Some(v)` produces exactly what serializing the bare value `v`
produces, and serializing `Maybe::None` produces an explicit structured
`null`. -/
theorem C2_serialize_transparent {T : Type} (serT : T → Except String Json) (v : T) :
    Maybe.serialize serT (Maybe.Some v) = serT v ∧
    Maybe.serialize serT (Maybe.None : Maybe T) = Except.ok Json.null :=
  ⟨rfl, rfl⟩

/-- C3: structured decode of a present field behaves like a binary optional:
a native `null` decodes to `Maybe::None`; any other structured value is
decoded as `T` and wrapped in `Maybe::Some`; and a failure of `T`'s decoder
propagates as the same error rather than being swallowed. -/
theorem C3_deserialize_present {T : Type} (deT : Json → Except String T) (j : Json) :
    Maybe.deserialize deT Json.null = Except.ok (Maybe.None : Maybe T) ∧
    (j ≠ Json.null → Maybe.deserialize deT j = (deT j).map Maybe.Some) ∧
    (∀ e : String, j ≠ Json.null → deT j = Except.error e →
      Maybe.deserialize deT j = Except.error e) := by
  have hne : j ≠ Json.null → deserializeOption deT j = (deT j).map Option.some := by
    intro h
    cases j with
    | null => exact absurd rfl h
    | bool b => rfl
    | num n => rfl
    | str s => rfl
    | arr l => rfl
    | obj l => rfl
  refine ⟨rfl, fun h => ?_, fun e h he => ?_⟩
  · rw [Maybe.deserialize, hne h]
    cases deT j <;> rfl
  · rw [Maybe.deserialize, hne h, he]
    rfl

/-- Concrete instance of C3: decoding the payload `34` yields `Some 34`, and a
decoder failure on a boolean payload propagates. -/
theorem C3_deserialize_present_witness :
    Maybe.deserialize deNat (Json.num 34) = (deNat (Json.num 34)).map Maybe.Some ∧
    Maybe.deserialize deNat (Json.bool true) = Except.error "expected a natural number" :=
  ⟨(C3_deserialize_present deNat (Json.num 34)).2.1 (fun h => Json.noConfusion h),
   (C3_deserialize_present deNat (Json.bool true)).2.2 "expected a natural number"
     (fun h => Json.noConfusion h) rfl⟩

/-- C4: the asymmetric round trip through the binary optional: converting
`Some v` to an `Option` and back restores `Some v`; absent round-trips to
absent; `Void` collapses to absent; but absent converts back to `None`, never
`Void`. -/
theorem C4_binary_optional_round_trip {T : Type} (v : T) :
    Maybe.fromOption (Maybe.toOption (Maybe.Some v)) = Maybe.Some v ∧
    Maybe.toOption (Maybe.fromOption (Option.none : Option T)) = Option.none ∧
    Maybe.toOption (Maybe.Void : Maybe T) = Option.none ∧
    Maybe.fromOption (Option.none : Option T) = Maybe.None ∧
    Maybe.fromOption (Option.none : Option T) ≠ Maybe.Void :=
  ⟨rfl, rfl, rfl, rfl, fun h => Maybe.noConfusion h⟩

/-- C5: conversion from a binary optional is total and never yields `Void`:
a present value maps to `Some`, an absent input maps to `None`, and no input
maps to `Void` (the function is total by construction, so it never fails). -/
theorem C5_from_binary_optional_total {T : Type} (v : T) (opt : Option T) :
    Maybe.fromOption (Option.some v) = Maybe.Some v ∧
    Maybe.fromOption (Option.none : Option T) = Maybe.None ∧
    Maybe.fromOption opt ≠ Maybe.Void := by
  refine ⟨rfl, rfl, ?_⟩
  cases opt with
  | none => exact fun h => Maybe.noConfusion h
  | some w => exact fun h => Maybe.noConfusion h

/-- C6: conversion to a binary optional collapses the two empty states:
`Some v` maps to the present optional holding `v`, and both `None` and `Void`
map to the absent optional. -/
theorem C6_to_binary_optional_collapses {T : Type} (v : T) :
    Maybe.toOption (Maybe.Some v) = Option.some v ∧
    Maybe.toOption (Maybe.None : Maybe T) = Option.none ∧
    Maybe.toOption (Maybe.Void : Maybe T) = Option.none :=
  ⟨rfl, rfl, rfl⟩

/-- C7: default construction yields the `Void` variant for every wrapped
type. -/
theorem C7_default_is_void (T : Type) : (Maybe.mkDefault : Maybe T) = Maybe.Void :=
  rfl

/-- C8: equality is structural — two `Maybe` values are equal iff they carry
the same variant and, for `Some`, equal payloads — and clone preserves it:
`Some v` clones to `Some v` whenever `T`'s clone preserves `v`, `Void` and
`None` clone to themselves, `Void ≠ None`, and `None ≠ Some d` even for a
default payload `d`. -/
theorem C8_structural_eq_and_clone {T : Type} (cloneT : T → T) (v d a b : T)
    (hv : cloneT v = v) :
    (Maybe.Some a = Maybe.Some b ↔ a = b) ∧
    (∀ x y : Maybe T, x = y ↔
      (match x, y with
       | Maybe.Void, Maybe.Void => True
       | Maybe.None, Maybe.None => True
       | Maybe.Some p, Maybe.Some q => p = q
       | _, _ => False)) ∧
    (Maybe.Void : Maybe T) ≠ Maybe.None ∧
    (Maybe.None : Maybe T) ≠ Maybe.Some d ∧
    Maybe.clone cloneT (Maybe.Some v) = Maybe.Some v ∧
    Maybe.clone cloneT (Maybe.Void : Maybe T) = Maybe.Void ∧
    Maybe.clone cloneT (Maybe.None : Maybe T) = Maybe.None := by
  refine ⟨?_, ?_, fun h => Maybe.noConfusion h, fun h => Maybe.noConfusion h,
    ?_, rfl, rfl⟩
  · exact ⟨fun h => by cases h; rfl, fun h => by rw [h]⟩
  · intro x y
    cases x <;> cases y <;> simp
  · rw [Maybe.clone, hv]

/-- Concrete instance of C8 at `T = Nat` with the identity clone: `Some 5`
clones to itself. -/
theorem C8_structural_eq_and_clone_witness :
    Maybe.clone id (Maybe.Some 5) = Maybe.Some (5 : Nat) :=
  (C8_structural_eq_and_clone id 5 0 1 1 rfl).2.2.2.2.1

/-- C9: the GraphQL input-type adapter is asymmetric: parsing an unsupplied
argument yields `Void`, parsing an explicit null yields `None`, parsing any
other value delegates to `T`'s parser and wraps the result in `Some`; and
converting back to a value maps `Some v` to `T`'s encoding while both `Void`
and `None` map to null. -/
theorem C9_graphql_adapter {T : Type} (pT : Option GqlValue → Except String T)
    (tvT : T → GqlValue) (v : T) (g : GqlValue) (hg : g ≠ GqlValue.null) :
    Maybe.parse pT Option.none = Except.ok (Maybe.Void : Maybe T) ∧
    Maybe.parse pT (Option.some GqlValue.null) = Except.ok (Maybe.None : Maybe T) ∧
    Maybe.parse pT (Option.some g) = (pT (Option.some g)).map Maybe.Some ∧
    Maybe.to_value tvT (Maybe.Some v) = tvT v ∧
    Maybe.to_value tvT (Maybe.Void : Maybe T) = GqlValue.null ∧
    Maybe.to_value tvT (Maybe.None : Maybe T) = GqlValue.null := by
  refine ⟨rfl, rfl, ?_, rfl, rfl, rfl⟩
  cases g with
  | null => exact absurd rfl hg
  | bool b => rfl
  | num n => rfl
  | str s => rfl
  | list l => rfl
  | object l => rfl

/-- Concrete instance of C9 at `T = Nat`: parsing the supplied value `7`
delegates to the `Nat` parser and wraps it in `Some`. -/
theorem C9_graphql_adapter_witness :
    Maybe.parse gqlParseNat (Option.some (GqlValue.num 7)) =
      (gqlParseNat (Option.some (GqlValue.num 7))).map Maybe.Some :=
  (C9_graphql_adapter gqlParseNat gqlNat 0 (GqlValue.num 7)
    (fun h => GqlValue.noConfusion h)).2.2.1

/-- C10: the structured-decode routine on its own never produces `Void`:
whenever `deserialize` succeeds the result is `None` or `Some v`, and
`deserialize` is exactly `Option`-deserialization followed by the
from-binary-optional conversion. -/
theorem C10_deserialize_never_void {T : Type} (deT : Json → Except String T)
    (j : Json) (m : Maybe T) (h : Maybe.deserialize deT j = Except.ok m) :
    m ≠ Maybe.Void ∧
    (m = Maybe.None ∨ ∃ v : T, m = Maybe.Some v) ∧
    Maybe.deserialize deT j = (deserializeOption deT j).map Maybe.fromOption := by
  have hm : ∃ o : Option T, m = Maybe.fromOption o := by
    rw [Maybe.deserialize] at h
    cases hd : deserializeOption deT j with
    | error e => rw [hd] at h; exact Except.noConfusion h
    | ok o =>
      rw [hd] at h
      exact ⟨o, (Except.ok.injEq _ _ ▸ h).symm⟩
  obtain ⟨o, rfl⟩ := hm
  cases o with
  | none => exact ⟨fun hc => Maybe.noConfusion hc, Or.inl rfl, rfl⟩
  | some w => exact ⟨fun hc => Maybe.noConfusion hc, Or.inr ⟨w, rfl⟩, rfl⟩

/-- Concrete instance of C10: decoding the payload `34` succeeds with
`Some 34`, which is not `Void`. -/
theorem C10_deserialize_never_void_witness :
    (Maybe.Some 34 : Maybe Nat) ≠ Maybe.Void :=
  (C10_deserialize_never_void deNat (Json.num 34) (Maybe.Some 34) rfl).1

end MaybeCrate
